import Mathlib

/-!
Verification of the geometry-cleaning and rendering logic of
src/components/canvas/Computers.jsx.

The cleaning hook (useCleanModel) clones the loaded scene, traverses it,
and for every mesh whose geometry has a position attribute:
  1. scans the position array once, replacing every element x with 0
     whenever isNaN(x) || !isFinite(x), recording in needsFix whether any
     replacement happened, and setting position.needsUpdate when it did;
  2. calls the library routine geometry.computeBoundingSphere() inside a
     try/catch, substituting a default sphere (center (0,0,0), radius 5)
     when it throws;
  3. afterwards, if the bounding sphere is missing, has a NaN radius, or
     has radius exactly 0, substitutes the same default sphere.

JavaScript numbers are modelled by an inductive type that distinguishes
NaN, the two infinities and finite values (as rationals); the claims only
inspect finiteness and compare values, never perform float arithmetic.
The library call computeBoundingSphere is external (three.js, not part of
this repository), so it is modelled as an oracle: a function from the
sanitized position array to an outcome that either throws or stores an
optional sphere.
-/

/-- A JavaScript number as far as the cleaning pass observes it:
NaN, one of the infinities, or a finite value (modelled as a rational). -/
inductive JsNum where
  | nan
  | posInf
  | negInf
  | num (q : ℚ)
deriving DecidableEq, Repr

/-- JavaScript isNaN on a number: true exactly on NaN. -/
def JsNum.isNaNB : JsNum → Bool
  | .nan => true
  | _ => false

/-- JavaScript isFinite on a number: false on NaN and both infinities. -/
def JsNum.isFiniteB : JsNum → Bool
  | .num _ => true
  | _ => false

/-- The body of the scan of useCleanModel, for one element: elements with
isNaN(x) || !isFinite(x) become 0, all others are kept. -/
def sanitizeElem (x : JsNum) : JsNum :=
  if x.isNaNB || !x.isFiniteB then JsNum.num 0 else x

/-- The scan loop of useCleanModel over the position array: returns the
rewritten array together with the needsFix flag (true when at least one
element was replaced). -/
def cleanLoop : List JsNum → List JsNum × Bool
  | [] => ([], false)
  | x :: xs =>
    let rest := cleanLoop xs
    if x.isNaNB || !x.isFiniteB then (JsNum.num 0 :: rest.1, true)
    else (x :: rest.1, rest.2)

/-- A THREE.Sphere as the cleaning pass uses it: a center and a radius. -/
structure Sphere where
  center : JsNum × JsNum × JsNum
  radius : JsNum
deriving DecidableEq, Repr

/-- The default sphere new THREE.Sphere(new THREE.Vector3(0,0,0), 5)
substituted by useCleanModel for invalid bounding spheres. -/
def defaultSphere : Sphere :=
  ⟨(JsNum.num 0, JsNum.num 0, JsNum.num 0), JsNum.num 5⟩

/-- A buffer geometry, restricted to the parts the cleaning pass can
observe or mutate: the optional position attribute (its array and its
needsUpdate flag), the other attributes (normal, uv, index) and the
bounding sphere. -/
structure Geometry where
  position : Option (List JsNum)
  posNeedsUpdate : Bool
  normal : List JsNum
  uv : List JsNum
  index : List Nat
  boundingSphere : Option Sphere
deriving DecidableEq, Repr

/-- Outcome of the external library call geometry.computeBoundingSphere():
either it throws, or it stores the given optional sphere on the geometry.
The routine is part of three.js, not of this repository, so its behaviour
is kept abstract. -/
inductive BSOutcome where
  | throws
  | ok (s : Option Sphere)
deriving DecidableEq, Repr

/-- The try/catch around computeBoundingSphere in useCleanModel: on a
throw the default sphere is stored, otherwise the outcome of the library
call is stored. -/
def applyBS (o : BSOutcome) (g : Geometry) : Geometry :=
  match o with
  | .throws => { g with boundingSphere := some defaultSphere }
  | .ok s => { g with boundingSphere := s }

/-- The validity test of useCleanModel on the stored bounding sphere:
!geometry.boundingSphere || isNaN(radius) || radius === 0. -/
def isInvalidSphere : Option Sphere → Bool
  | none => true
  | some s => s.radius.isNaNB || decide (s.radius = JsNum.num 0)

/-- The final guard of useCleanModel: force the default sphere whenever
the stored bounding sphere is still invalid. -/
def forceValidSphere (g : Geometry) : Geometry :=
  if isInvalidSphere g.boundingSphere then
    { g with boundingSphere := some defaultSphere }
  else g

/-- The whole per-geometry cleaning pass of useCleanModel, parametrised by
the behaviour bs of the external computeBoundingSphere routine (a function
of the sanitized position array). Geometries without a position attribute
are left untouched, exactly as in the source. -/
def cleanGeometry (bs : List JsNum → BSOutcome) (g : Geometry) : Geometry :=
  match g.position with
  | none => g
  | some arr =>
    forceValidSphere (applyBS (bs (cleanLoop arr).1)
      { g with
        position := some (cleanLoop arr).1,
        posNeedsUpdate := if (cleanLoop arr).2 then true else g.posNeedsUpdate })

/-- A node of the cloned scene graph: a mesh carries an optional geometry
and a material, every other object kind is collapsed into group; both
carry children, which traverse visits recursively. The guard in the
source is child.isMesh && child.geometry, and cleanGeometry itself guards
on the position attribute. -/
inductive SceneNode where
  | mesh (geometry : Option Geometry) (material : Nat) (children : List SceneNode)
  | group (name : Nat) (children : List SceneNode)
deriving Repr

mutual

/-- The traverse callback of useCleanModel applied over a whole subtree:
meshes with a geometry get their geometry cleaned, everything else is
kept as is; children are visited recursively. -/
def cleanNode (bs : List JsNum → BSOutcome) : SceneNode → SceneNode
  | .mesh g m cs => .mesh (g.map (cleanGeometry bs)) m (cleanNodes bs cs)
  | .group n cs => .group n (cleanNodes bs cs)

/-- cleanNode mapped over a list of children. -/
def cleanNodes (bs : List JsNum → BSOutcome) : List SceneNode → List SceneNode
  | [] => []
  | c :: cs => cleanNode bs c :: cleanNodes bs cs

end

/-- Erase from a geometry exactly the fields the cleaning pass is allowed
to touch: the position attribute, its needsUpdate flag and the bounding
sphere. Two geometries with equal erasures agree on every other field. -/
def scrubGeometry (g : Geometry) : Geometry :=
  { g with position := none, posNeedsUpdate := false, boundingSphere := none }

mutual

/-- Erase the mutable geometry fields everywhere in a subtree, keeping
node kinds, materials, group data and tree structure. -/
def scrubNode : SceneNode → SceneNode
  | .mesh g m cs => .mesh (g.map scrubGeometry) m (scrubNodes cs)
  | .group n cs => .group n (scrubNodes cs)

/-- scrubNode mapped over a list of children. -/
def scrubNodes : List SceneNode → List SceneNode
  | [] => []
  | c :: cs => scrubNode c :: scrubNodes cs

end

/-- One procedural placeholder mesh of FallbackComputer: its transform,
its boxGeometry args and its meshStandardMaterial color. -/
structure MeshSpec where
  scale : ℚ
  position : ℚ × ℚ × ℚ
  rotation : ℚ × ℚ × ℚ
  boxArgs : ℚ × ℚ × ℚ
  matKind : String
  color : String
deriving DecidableEq, Repr

/-- What the Computers component returns: either the procedural fallback
meshes, or the loaded model rendered as a primitive with the given scale,
position and rotation. -/
inductive RenderOutput where
  | fallback (meshes : List MeshSpec)
  | model (scene : SceneNode) (scale : ℚ) (position : ℚ × ℚ × ℚ) (rotation : ℚ × ℚ × ℚ)
deriving Repr

/-- The FallbackComputer component: two box meshes with standard
materials, with the transforms, box arguments and colors of the source. -/
def FallbackComputer (isMobile : Bool) : List MeshSpec :=
  [ { scale := if isMobile then 3/10 else 3/5,
      position := if isMobile then (0, -3, -11/5) else (0, -37/10, -7/5),
      rotation := (-1/100, -1/5, -1/10),
      boxArgs := (3, 2, 1),
      matKind := "meshStandardMaterial",
      color := "#333" },
    { scale := if isMobile then 1/4 else 1/2,
      position := if isMobile then (0, -3/2, -5/2) else (0, -2, -2),
      rotation := (-1/100, -1/5, -1/10),
      boxArgs := (5/2, 1/10, 3/2),
      matKind := "meshStandardMaterial",
      color := "#666" } ]

/-- The Computers component: when the cleaned scene is unavailable it
returns the FallbackComputer output, otherwise it renders the scene as a
primitive with scale isMobile ? 0.3 : 0.6, position
isMobile ? [0,-3,-2.2] : [0,-3.7,-1.4] and rotation [-0.01,-0.2,-0.1]. -/
def Computers (cleanScene : Option SceneNode) (isMobile : Bool) : RenderOutput :=
  match cleanScene with
  | none => RenderOutput.fallback (FallbackComputer isMobile)
  | some s =>
    RenderOutput.model s
      (if isMobile then 3/10 else 3/5)
      (if isMobile then (0, -3, -11/5) else (0, -37/10, -7/5))
      (-1/100, -1/5, -1/10)

/-- The CSS media query string of the source, "(max-width: 500px)": per
the CSS semantics of max-width it matches exactly when the viewport width
in pixels is at most 500. -/
def matchesMaxWidth500 (viewportWidth : ℚ) : Bool :=
  viewportWidth ≤ 500

/-- The change handler of ComputersCanvas: the next isMobile state is
event.matches. -/
def handleMediaQueryChange (eventMatches : Bool) : Bool :=
  eventMatches

/-- A concrete oracle for witnesses: computeBoundingSphere always throws. -/
def bsThrows : List JsNum → BSOutcome := fun _ => BSOutcome.throws

/-- A concrete geometry for witnesses, with one NaN in its positions. -/
def sampleGeometry : Geometry :=
  { position := some [JsNum.nan, JsNum.num 2],
    posNeedsUpdate := false,
    normal := [JsNum.num 1],
    uv := [],
    index := [0],
    boundingSphere := none }

/-- A second concrete geometry for witnesses, sharing the position array
of sampleGeometry but differing in every other field. -/
def sampleGeometry2 : Geometry :=
  { position := some [JsNum.nan, JsNum.num 2],
    posNeedsUpdate := true,
    normal := [],
    uv := [JsNum.num 7],
    index := [],
    boundingSphere := some defaultSphere }

/-- A concrete geometry for witnesses whose finite vertices coincide. -/
def coincidentGeometry : Geometry :=
  { position := some [JsNum.num 1, JsNum.num 2, JsNum.num 3,
      JsNum.num 1, JsNum.num 2, JsNum.num 3],
    posNeedsUpdate := false,
    normal := [],
    uv := [],
    index := [],
    boundingSphere := none }

/-- A concrete scene node for witnesses. -/
def sampleScene : SceneNode := SceneNode.group 0 []

-- Characterisation lemmas for the scan loop.

/-- The scan is a single elementwise pass: the rewritten array is the
elementwise sanitization and needsFix is a disjunction over the array. -/
theorem cleanLoop_eq_map (a : List JsNum) :
    cleanLoop a = (a.map sanitizeElem, a.any fun x => x.isNaNB || !x.isFiniteB) := by
  induction a with
  | nil => rfl
  | cons x xs ih =>
    rw [cleanLoop, ih]
    by_cases hx : (x.isNaNB || !x.isFiniteB) = true
    · simp [hx, sanitizeElem]
    · simp [hx, sanitizeElem]

theorem sanitizeElem_isFiniteB (x : JsNum) : (sanitizeElem x).isFiniteB = true := by
  cases x <;> simp [sanitizeElem, JsNum.isNaNB, JsNum.isFiniteB]

theorem sanitizeElem_of_finite (x : JsNum) (h : x.isFiniteB = true) :
    sanitizeElem x = x := by
  cases x <;> simp_all [sanitizeElem, JsNum.isNaNB, JsNum.isFiniteB]

theorem sanitizeElem_of_not_finite (x : JsNum) (h : x.isFiniteB = false) :
    sanitizeElem x = JsNum.num 0 := by
  cases x <;> simp_all [sanitizeElem, JsNum.isNaNB, JsNum.isFiniteB]

theorem bad_eq_not_finite (x : JsNum) :
    (x.isNaNB || !x.isFiniteB) = !x.isFiniteB := by
  cases x <;> rfl

theorem any_bad_eq_not_all (a : List JsNum) :
    (a.any fun x => x.isNaNB || !x.isFiniteB) = !a.all JsNum.isFiniteB := by
  induction a with
  | nil => rfl
  | cons x xs ih =>
    rw [List.any_cons, List.all_cons, ih, bad_eq_not_finite]
    cases hx : x.isFiniteB <;> simp

theorem any_not_finite_eq_not_all (a : List JsNum) :
    (a.any fun x => !x.isFiniteB) = !a.all JsNum.isFiniteB := by
  induction a with
  | nil => rfl
  | cons x xs ih =>
    rw [List.any_cons, List.all_cons, ih]
    cases hx : x.isFiniteB <;> simp

theorem cleanLoop_snd (a : List JsNum) :
    (cleanLoop a).2 = a.any fun x => !x.isFiniteB := by
  rw [cleanLoop_eq_map]
  rw [any_not_finite_eq_not_all, ← any_bad_eq_not_all]

theorem map_sanitize_of_all_finite (a : List JsNum)
    (h : a.all JsNum.isFiniteB = true) :
    a.map sanitizeElem = a := by
  induction a with
  | nil => rfl
  | cons x xs ih =>
    simp only [List.all_cons, Bool.and_eq_true] at h
    rw [List.map_cons, sanitizeElem_of_finite x h.1, ih h.2]

theorem all_finite_map_sanitize (a : List JsNum) :
    (a.map sanitizeElem).all JsNum.isFiniteB = true := by
  induction a with
  | nil => rfl
  | cons x xs ih =>
    rw [List.map_cons, List.all_cons, ih, sanitizeElem_isFiniteB]
    rfl

-- Field-preservation lemmas for the sphere steps.

theorem applyBS_position (o : BSOutcome) (g : Geometry) :
    (applyBS o g).position = g.position := by
  cases o <;> rfl

theorem applyBS_posNeedsUpdate (o : BSOutcome) (g : Geometry) :
    (applyBS o g).posNeedsUpdate = g.posNeedsUpdate := by
  cases o <;> rfl

theorem applyBS_normal (o : BSOutcome) (g : Geometry) :
    (applyBS o g).normal = g.normal := by
  cases o <;> rfl

theorem applyBS_uv (o : BSOutcome) (g : Geometry) :
    (applyBS o g).uv = g.uv := by
  cases o <;> rfl

theorem applyBS_index (o : BSOutcome) (g : Geometry) :
    (applyBS o g).index = g.index := by
  cases o <;> rfl

theorem forceValidSphere_position (g : Geometry) :
    (forceValidSphere g).position = g.position := by
  unfold forceValidSphere
  split <;> rfl

theorem forceValidSphere_posNeedsUpdate (g : Geometry) :
    (forceValidSphere g).posNeedsUpdate = g.posNeedsUpdate := by
  unfold forceValidSphere
  split <;> rfl

theorem forceValidSphere_normal (g : Geometry) :
    (forceValidSphere g).normal = g.normal := by
  unfold forceValidSphere
  split <;> rfl

theorem forceValidSphere_uv (g : Geometry) :
    (forceValidSphere g).uv = g.uv := by
  unfold forceValidSphere
  split <;> rfl

theorem forceValidSphere_index (g : Geometry) :
    (forceValidSphere g).index = g.index := by
  unfold forceValidSphere
  split <;> rfl

theorem cleanGeometry_position (bs : List JsNum → BSOutcome) (g : Geometry)
    (arr : List JsNum) (hp : g.position = some arr) :
    (cleanGeometry bs g).position = some (arr.map sanitizeElem) := by
  rw [cleanGeometry, hp]
  simp only [forceValidSphere_position, applyBS_position, cleanLoop_eq_map]

theorem cleanGeometry_posNeedsUpdate (bs : List JsNum → BSOutcome) (g : Geometry)
    (arr : List JsNum) (hp : g.position = some arr) :
    (cleanGeometry bs g).posNeedsUpdate =
      (if (cleanLoop arr).2 then true else g.posNeedsUpdate) := by
  rw [cleanGeometry, hp]
  simp only [forceValidSphere_posNeedsUpdate, applyBS_posNeedsUpdate]

theorem cleanGeometry_normal (bs : List JsNum → BSOutcome) (g : Geometry) :
    (cleanGeometry bs g).normal = g.normal := by
  rw [cleanGeometry]
  cases hp : g.position with
  | none => rfl
  | some arr => simp only [forceValidSphere_normal, applyBS_normal]

theorem cleanGeometry_uv (bs : List JsNum → BSOutcome) (g : Geometry) :
    (cleanGeometry bs g).uv = g.uv := by
  rw [cleanGeometry]
  cases hp : g.position with
  | none => rfl
  | some arr => simp only [forceValidSphere_uv, applyBS_uv]

theorem cleanGeometry_index (bs : List JsNum → BSOutcome) (g : Geometry) :
    (cleanGeometry bs g).index = g.index := by
  rw [cleanGeometry]
  cases hp : g.position with
  | none => rfl
  | some arr => simp only [forceValidSphere_index, applyBS_index]

theorem isInvalidSphere_defaultSphere :
    isInvalidSphere (some defaultSphere) = false := by
  decide

theorem forceValidSphere_applyBS (o : BSOutcome) (g : Geometry) :
    (forceValidSphere (applyBS o g)).boundingSphere =
      (match o with
        | BSOutcome.throws => some defaultSphere
        | BSOutcome.ok s =>
          if isInvalidSphere s then some defaultSphere else s) := by
  cases o with
  | throws =>
    simp only [applyBS]
    unfold forceValidSphere
    simp [isInvalidSphere_defaultSphere]
  | ok s =>
    simp only [applyBS]
    unfold forceValidSphere
    by_cases hs : isInvalidSphere s = true
    · simp [hs]
    · simp [hs]

theorem cleanGeometry_boundingSphere (bs : List JsNum → BSOutcome) (g : Geometry)
    (arr : List JsNum) (hp : g.position = some arr) :
    (cleanGeometry bs g).boundingSphere =
      (match bs (cleanLoop arr).1 with
        | BSOutcome.throws => some defaultSphere
        | BSOutcome.ok s =>
          if isInvalidSphere s then some defaultSphere else s) := by
  rw [cleanGeometry, hp, forceValidSphere_applyBS]

theorem scrubGeometry_cleanGeometry (bs : List JsNum → BSOutcome) (g : Geometry) :
    scrubGeometry (cleanGeometry bs g) = scrubGeometry g := by
  unfold scrubGeometry
  rw [cleanGeometry_normal, cleanGeometry_uv, cleanGeometry_index]

mutual

theorem scrubNode_cleanNode (bs : List JsNum → BSOutcome) :
    ∀ n : SceneNode, scrubNode (cleanNode bs n) = scrubNode n
  | .mesh g m cs => by
    rw [cleanNode, scrubNode, scrubNode, scrubNodes_cleanNodes bs cs]
    cases g with
    | none => rfl
    | some geo => simp only [Option.map_some', scrubGeometry_cleanGeometry]
  | .group n cs => by
    rw [cleanNode, scrubNode, scrubNode, scrubNodes_cleanNodes bs cs]

theorem scrubNodes_cleanNodes (bs : List JsNum → BSOutcome) :
    ∀ ns : List SceneNode, scrubNodes (cleanNodes bs ns) = scrubNodes ns
  | [] => rfl
  | c :: cs => by
    rw [cleanNodes, scrubNodes, scrubNodes, scrubNode_cleanNode bs c,
      scrubNodes_cleanNodes bs cs]

end

-- The claims.

/-- C1: after the cleaning pass of useCleanModel, every element of the
position array of a mesh geometry is finite: each element whose original
value was NaN or infinite equals 0 and each element whose original value
was finite equals its original value. -/
theorem cleanGeometry_positions_finite (bs : List JsNum → BSOutcome)
    (g : Geometry) (arr : List JsNum) (hp : g.position = some arr)
    (i : Nat) (hi : i < arr.length) :
    ∃ cleaned, (cleanGeometry bs g).position = some cleaned ∧
      cleaned.length = arr.length ∧
      ∃ x y, arr[i]? = some x ∧ cleaned[i]? = some y ∧
        y.isFiniteB = true ∧
        (x.isFiniteB = true → y = x) ∧
        (x.isFiniteB = false → y = JsNum.num 0) := by
  refine ⟨arr.map sanitizeElem, cleanGeometry_position bs g arr hp, by simp, ?_⟩
  have hx : arr[i]? = some arr[i] := List.getElem?_eq_getElem hi
  refine ⟨arr[i], sanitizeElem arr[i], hx, ?_, sanitizeElem_isFiniteB _,
    sanitizeElem_of_finite _, sanitizeElem_of_not_finite _⟩
  rw [List.getElem?_map, hx]
  rfl

/-- Witness for C1 at a concrete geometry with one NaN entry. -/
theorem cleanGeometry_positions_finite_witness :
    sampleGeometry.position = some [JsNum.nan, JsNum.num 2] ∧
    0 < [JsNum.nan, JsNum.num 2].length ∧
    (∃ cleaned, (cleanGeometry bsThrows sampleGeometry).position = some cleaned ∧
      cleaned.length = [JsNum.nan, JsNum.num 2].length ∧
      ∃ x y, [JsNum.nan, JsNum.num 2][0]? = some x ∧ cleaned[0]? = some y ∧
        y.isFiniteB = true ∧
        (x.isFiniteB = true → y = x) ∧
        (x.isFiniteB = false → y = JsNum.num 0)) :=
  ⟨rfl, by decide, cleanGeometry_positions_finite bsThrows sampleGeometry
    [JsNum.nan, JsNum.num 2] rfl 0 (by decide)⟩

/-- C5: the cleaning scan terminates on every input and is a single
bounded linear pass: cleanLoop is a total function equal to one
elementwise map over the position array together with one disjunction for
the needsFix flag, and it preserves the array length, so each element is
visited exactly once and there are no repeated passes. -/
theorem cleanLoop_terminates_single_pass (a : List JsNum) :
    cleanLoop a = (a.map sanitizeElem, a.any fun x => x.isNaNB || !x.isFiniteB) ∧
    (cleanLoop a).1.length = a.length := by
  refine ⟨cleanLoop_eq_map a, ?_⟩
  rw [cleanLoop_eq_map]
  simp

/-- C8: the sanitization scan is idempotent: on an array whose elements
are all finite it returns the array unchanged with needsFix still false,
and rescanning the output of any scan changes nothing and reports no fix,
so cleaning twice equals cleaning once. -/
theorem cleanLoop_idempotent (a b : List JsNum)
    (h : a.all JsNum.isFiniteB = true) :
    cleanLoop a = (a, false) ∧
    cleanLoop (cleanLoop b).1 = ((cleanLoop b).1, false) := by
  have key : ∀ c : List JsNum, c.all JsNum.isFiniteB = true →
      cleanLoop c = (c, false) := by
    intro c hc
    rw [cleanLoop_eq_map, any_bad_eq_not_all, hc, map_sanitize_of_all_finite c hc]
    rfl
  refine ⟨key a h, ?_⟩
  have hb : (cleanLoop b).1 = b.map sanitizeElem := by rw [cleanLoop_eq_map]
  rw [hb]
  exact key _ (all_finite_map_sanitize b)

/-- Witness for C8 at a concrete all-finite array and a concrete array
holding a NaN. -/
theorem cleanLoop_idempotent_witness :
    [JsNum.num 1].all JsNum.isFiniteB = true ∧
    (cleanLoop [JsNum.num 1] = ([JsNum.num 1], false) ∧
     cleanLoop (cleanLoop [JsNum.nan]).1 = ((cleanLoop [JsNum.nan]).1, false)) :=
  ⟨by decide, cleanLoop_idempotent [JsNum.num 1] [JsNum.nan] (by decide)⟩

/-- C10: the needsUpdate flag of the position attribute is forced to true
exactly when at least one element of the position array was NaN or
infinite; when every element was already finite the flag is not written
and keeps its previous value. -/
theorem cleanGeometry_needsUpdate_iff (bs : List JsNum → BSOutcome)
    (g : Geometry) (arr : List JsNum) (hp : g.position = some arr) :
    ((cleanLoop arr).2 = true ↔ (arr.any fun x => !x.isFiniteB) = true) ∧
    ((arr.any fun x => !x.isFiniteB) = true →
      (cleanGeometry bs g).posNeedsUpdate = true) ∧
    (arr.all JsNum.isFiniteB = true →
      (cleanGeometry bs g).posNeedsUpdate = g.posNeedsUpdate) := by
  refine ⟨by rw [cleanLoop_snd], ?_, ?_⟩
  · intro h
    rw [cleanGeometry_posNeedsUpdate bs g arr hp, cleanLoop_snd, h]
    rfl
  · intro h
    rw [cleanGeometry_posNeedsUpdate bs g arr hp, cleanLoop_snd,
      any_not_finite_eq_not_all, h]
    rfl

/-- Witness for C10 at a concrete geometry with one NaN entry. -/
theorem cleanGeometry_needsUpdate_iff_witness :
    sampleGeometry.position = some [JsNum.nan, JsNum.num 2] ∧
    (((cleanLoop [JsNum.nan, JsNum.num 2]).2 = true ↔
       ([JsNum.nan, JsNum.num 2].any fun x => !x.isFiniteB) = true) ∧
     (([JsNum.nan, JsNum.num 2].any fun x => !x.isFiniteB) = true →
       (cleanGeometry bsThrows sampleGeometry).posNeedsUpdate = true) ∧
     ([JsNum.nan, JsNum.num 2].all JsNum.isFiniteB = true →
       (cleanGeometry bsThrows sampleGeometry).posNeedsUpdate =
         sampleGeometry.posNeedsUpdate)) :=
  ⟨rfl, cleanGeometry_needsUpdate_iff bsThrows sampleGeometry
    [JsNum.nan, JsNum.num 2] rfl⟩

/-- C2: after the cleaning pass, a geometry with a position attribute has
a bounding sphere whose radius is neither NaN nor 0: when the library
computation throws, yields no sphere, a sphere with NaN radius or a
sphere with radius 0, the default sphere (center (0,0,0), radius 5) is
stored, and otherwise the computed sphere is kept. -/
theorem cleanGeometry_sphere_valid (bs : List JsNum → BSOutcome)
    (g : Geometry) (arr : List JsNum) (hp : g.position = some arr) :
    ∃ s, (cleanGeometry bs g).boundingSphere = some s ∧
      s.radius.isNaNB = false ∧ s.radius ≠ JsNum.num 0 ∧
      (bs (cleanLoop arr).1 = BSOutcome.throws → s = defaultSphere) ∧
      (bs (cleanLoop arr).1 = BSOutcome.ok none → s = defaultSphere) ∧
      (∀ t, bs (cleanLoop arr).1 = BSOutcome.ok (some t) →
        ((t.radius.isNaNB = true ∨ t.radius = JsNum.num 0) → s = defaultSphere) ∧
        (t.radius.isNaNB = false → t.radius ≠ JsNum.num 0 → s = t)) := by
  obtain ⟨o, ho⟩ : ∃ o, bs (cleanLoop arr).1 = o := ⟨_, rfl⟩
  rw [ho]
  cases o with
  | throws =>
    refine ⟨defaultSphere, ?_, by decide, by decide, fun _ => rfl, ?_, ?_⟩
    · rw [cleanGeometry_boundingSphere bs g arr hp, ho]
    · intro hcon
      exact nomatch hcon
    · intro t hcon
      exact nomatch hcon
  | ok s =>
    cases s with
    | none =>
      refine ⟨defaultSphere, ?_, by decide, by decide, ?_, fun _ => rfl, ?_⟩
      · rw [cleanGeometry_boundingSphere bs g arr hp, ho]
        simp [isInvalidSphere]
      · intro hcon
        exact nomatch hcon
      · intro t hcon
        injection hcon with h2
        exact nomatch h2
    | some t =>
      by_cases hv : isInvalidSphere (some t) = true
      · refine ⟨defaultSphere, ?_, by decide, by decide, ?_, ?_, ?_⟩
        · rw [cleanGeometry_boundingSphere bs g arr hp, ho]
          simp [hv]
        · intro hcon
          exact nomatch hcon
        · intro hcon
          injection hcon with h2
          exact nomatch h2
        · intro t2 hcon
          injection hcon with h2
          injection h2 with h3
          subst h3
          refine ⟨fun _ => rfl, fun hn h0 => ?_⟩
          exfalso
          simp [isInvalidSphere, hn, h0] at hv
      · have hv2 : t.radius.isNaNB = false ∧ ¬(t.radius = JsNum.num 0) := by
          simpa [isInvalidSphere] using hv
        refine ⟨t, ?_, hv2.1, hv2.2, ?_, ?_, ?_⟩
        · rw [cleanGeometry_boundingSphere bs g arr hp, ho]
          simp only [Bool.not_eq_true] at hv
          simp [hv]
        · intro hcon
          exact nomatch hcon
        · intro hcon
          injection hcon with h2
          exact nomatch h2
        · intro t2 hcon
          injection hcon with h2
          injection h2 with h3
          subst h3
          refine ⟨fun hbad => ?_, fun _ _ => rfl⟩
          exfalso
          apply hv
          rcases hbad with hb1 | hb2
          · simp [isInvalidSphere, hb1]
          · simp [isInvalidSphere, hb2]

/-- Witness for C2 at a concrete geometry and an oracle that throws. -/
theorem cleanGeometry_sphere_valid_witness :
    sampleGeometry.position = some [JsNum.nan, JsNum.num 2] ∧
    (∃ s, (cleanGeometry bsThrows sampleGeometry).boundingSphere = some s ∧
      s.radius.isNaNB = false ∧ s.radius ≠ JsNum.num 0 ∧
      (bsThrows (cleanLoop [JsNum.nan, JsNum.num 2]).1 = BSOutcome.throws →
        s = defaultSphere) ∧
      (bsThrows (cleanLoop [JsNum.nan, JsNum.num 2]).1 = BSOutcome.ok none →
        s = defaultSphere) ∧
      (∀ t, bsThrows (cleanLoop [JsNum.nan, JsNum.num 2]).1 =
          BSOutcome.ok (some t) →
        ((t.radius.isNaNB = true ∨ t.radius = JsNum.num 0) → s = defaultSphere) ∧
        (t.radius.isNaNB = false → t.radius ≠ JsNum.num 0 → s = t))) :=
  ⟨rfl, cleanGeometry_sphere_valid bsThrows sampleGeometry
    [JsNum.nan, JsNum.num 2] rfl⟩

/-- C7: the cleaning transformation is deterministic and stateless: with
the library oracle behaving identically, two geometries carrying the same
position array are given identical cleaned position arrays and identical
cleaned bounding spheres, whatever their remaining state. -/
theorem cleanGeometry_deterministic (bs : List JsNum → BSOutcome)
    (g1 g2 : Geometry) (arr : List JsNum)
    (h1 : g1.position = some arr) (h2 : g2.position = some arr) :
    (cleanGeometry bs g1).position = (cleanGeometry bs g2).position ∧
    (cleanGeometry bs g1).boundingSphere = (cleanGeometry bs g2).boundingSphere := by
  refine ⟨?_, ?_⟩
  · rw [cleanGeometry_position bs g1 arr h1, cleanGeometry_position bs g2 arr h2]
  · rw [cleanGeometry_boundingSphere bs g1 arr h1,
      cleanGeometry_boundingSphere bs g2 arr h2]

/-- Witness for C7 at two concrete geometries sharing a position array
but differing in every other field. -/
theorem cleanGeometry_deterministic_witness :
    sampleGeometry.position = some [JsNum.nan, JsNum.num 2] ∧
    sampleGeometry2.position = some [JsNum.nan, JsNum.num 2] ∧
    ((cleanGeometry bsThrows sampleGeometry).position =
      (cleanGeometry bsThrows sampleGeometry2).position ∧
     (cleanGeometry bsThrows sampleGeometry).boundingSphere =
      (cleanGeometry bsThrows sampleGeometry2).boundingSphere) :=
  ⟨rfl, rfl, cleanGeometry_deterministic bsThrows sampleGeometry sampleGeometry2
    [JsNum.nan, JsNum.num 2] rfl rfl⟩

/-- C9: a geometry whose finite vertices are coincident, so that the
correctly computed bounding sphere has radius exactly 0, has that valid
sphere discarded: the pass stores the default sphere (center (0,0,0),
radius 5) because the validity test treats radius 0 like an invalid
sphere. -/
theorem zero_radius_sphere_replaced (g : Geometry) (arr : List JsNum)
    (c : JsNum × JsNum × JsNum) (hp : g.position = some arr)
    (_hf : arr.all JsNum.isFiniteB = true) :
    (cleanGeometry (fun _ => BSOutcome.ok (some ⟨c, JsNum.num 0⟩)) g).boundingSphere =
      some defaultSphere := by
  rw [cleanGeometry_boundingSphere _ g arr hp]
  simp [isInvalidSphere]

/-- Witness for C9 at a concrete geometry whose six finite coordinates
describe two coincident vertices. -/
theorem zero_radius_sphere_replaced_witness :
    coincidentGeometry.position = some [JsNum.num 1, JsNum.num 2, JsNum.num 3,
      JsNum.num 1, JsNum.num 2, JsNum.num 3] ∧
    [JsNum.num 1, JsNum.num 2, JsNum.num 3, JsNum.num 1, JsNum.num 2,
      JsNum.num 3].all JsNum.isFiniteB = true ∧
    (cleanGeometry
        (fun _ => BSOutcome.ok
          (some ⟨(JsNum.num 1, JsNum.num 2, JsNum.num 3), JsNum.num 0⟩))
        coincidentGeometry).boundingSphere = some defaultSphere :=
  ⟨rfl, by decide, zero_radius_sphere_replaced coincidentGeometry
    [JsNum.num 1, JsNum.num 2, JsNum.num 3, JsNum.num 1, JsNum.num 2, JsNum.num 3]
    (JsNum.num 1, JsNum.num 2, JsNum.num 3) rfl (by decide)⟩

/-- C6: frame condition of the cleaning pass: erasing exactly the
position attribute, its needsUpdate flag and the bounding sphere from
every geometry makes the cleaned scene equal to the original, so node
kinds, tree structure, mesh materials and non-mesh nodes are untouched;
moreover the normal, uv and index attributes of every geometry are
preserved verbatim. -/
theorem clean_frame_condition (bs : List JsNum → BSOutcome) (n : SceneNode)
    (g : Geometry) :
    scrubNode (cleanNode bs n) = scrubNode n ∧
    (cleanGeometry bs g).normal = g.normal ∧
    (cleanGeometry bs g).uv = g.uv ∧
    (cleanGeometry bs g).index = g.index :=
  ⟨scrubNode_cleanNode bs n, cleanGeometry_normal bs g, cleanGeometry_uv bs g,
    cleanGeometry_index bs g⟩

/-- C3: when the cleaned scene is unavailable the Computers component
returns the FallbackComputer output, which is exactly two box meshes with
standard materials; when the cleaned scene is available the loaded scene
is rendered as a primitive and the fallback is not returned. -/
theorem computers_fallback_model (m : Bool) (s : SceneNode) :
    Computers none m = RenderOutput.fallback (FallbackComputer m) ∧
    (FallbackComputer m).length = 2 ∧
    (FallbackComputer m).map MeshSpec.matKind =
      ["meshStandardMaterial", "meshStandardMaterial"] ∧
    (FallbackComputer m).map MeshSpec.boxArgs =
      [(3, 2, 1), (5/2, 1/10, 3/2)] ∧
    (∃ sc p r, Computers (some s) m = RenderOutput.model s sc p r) ∧
    (∀ ms, Computers (some s) m ≠ RenderOutput.fallback ms) := by
  refine ⟨rfl, rfl, rfl, rfl, ⟨_, _, _, rfl⟩, ?_⟩
  intro ms hcon
  simp only [Computers] at hcon
  exact nomatch hcon

/-- Witness for C3 at a concrete scene node and isMobile false. -/
theorem computers_fallback_model_witness :
    Computers none false = RenderOutput.fallback (FallbackComputer false) ∧
    (FallbackComputer false).length = 2 ∧
    (FallbackComputer false).map MeshSpec.matKind =
      ["meshStandardMaterial", "meshStandardMaterial"] ∧
    (FallbackComputer false).map MeshSpec.boxArgs =
      [(3, 2, 1), (5/2, 1/10, 3/2)] ∧
    (∃ sc p r, Computers (some sampleScene) false =
      RenderOutput.model sampleScene sc p r) ∧
    (∀ ms, Computers (some sampleScene) false ≠ RenderOutput.fallback ms) :=
  computers_fallback_model false sampleScene

/-- C4: the responsive behaviour is decided by the media query
"(max-width: 500px)": the query matches exactly when the viewport width
is at most 500 pixels; with a matching viewport the model primitive gets
scale 0.3 and position [0, -3, -2.2], with a non-matching one scale 0.6
and position [0, -3.7, -1.4]; and every media-query change event updates
the isMobile flag to the event matches value. -/
theorem responsive_breakpoint (w : ℚ) (s : SceneNode) (e : Bool) :
    (matchesMaxWidth500 w = true ↔ w ≤ 500) ∧
    handleMediaQueryChange e = e ∧
    (matchesMaxWidth500 w = true →
      Computers (some s) (matchesMaxWidth500 w) =
        RenderOutput.model s (3/10) (0, -3, -11/5) (-1/100, -1/5, -1/10)) ∧
    (matchesMaxWidth500 w = false →
      Computers (some s) (matchesMaxWidth500 w) =
        RenderOutput.model s (3/5) (0, -37/10, -7/5) (-1/100, -1/5, -1/10)) := by
  refine ⟨by simp [matchesMaxWidth500], rfl, ?_, ?_⟩
  · intro h
    simp [Computers, h]
  · intro h
    simp [Computers, h]

/-- Witness for C4 at viewport width 400 and a change event with
matches true. -/
theorem responsive_breakpoint_witness :
    (matchesMaxWidth500 400 = true ↔ (400 : ℚ) ≤ 500) ∧
    handleMediaQueryChange true = true ∧
    (matchesMaxWidth500 400 = true →
      Computers (some sampleScene) (matchesMaxWidth500 400) =
        RenderOutput.model sampleScene (3/10) (0, -3, -11/5) (-1/100, -1/5, -1/10)) ∧
    (matchesMaxWidth500 400 = false →
      Computers (some sampleScene) (matchesMaxWidth500 400) =
        RenderOutput.model sampleScene (3/5) (0, -37/10, -7/5) (-1/100, -1/5, -1/10)) :=
  responsive_breakpoint 400 sampleScene true
